import Mathlib

/-!
Shallow embedding of the `Scrollbar` class from `src/app.ts` (ianisparfait/scrollbar).

The class manages a custom vertical scrollbar: a track element (`this.element`)
and a thumb element (`this.indicator`) inside a scrollable parent.  The numeric
computations of the source are embedded as functions over `ℚ`; because
JavaScript division by zero produces `NaN`/`Infinity` rather than a number, the
computations of `updateIndicator` and `onDrag` (whose denominators the source
does not guard) are carried out in `JSNum`, an idealized JavaScript number type:
exact rationals extended with `NaN` and signed infinities, with IEEE-754
special-value propagation (rounding is not modelled; all claims here concern
exact values and special-value production only).
-/

/-- Idealized JavaScript number: a finite exact rational, `NaN`, or a signed
infinity (`inf true` is `+Infinity`). `-0` is not modelled; in every
computation embedded below a zero denominator arises only as `+0`. -/
inductive JSNum where
  | nan : JSNum
  | inf : Bool → JSNum
  | fin : ℚ → JSNum
deriving DecidableEq

namespace JSNum

/-- IEEE-754 addition on `JSNum` (as JavaScript `+` on numbers). -/
def add : JSNum → JSNum → JSNum
  | nan, _ => nan
  | _, nan => nan
  | inf s, inf t => if s = t then inf s else nan
  | inf s, fin _ => inf s
  | fin _, inf t => inf t
  | fin a, fin b => fin (a + b)

/-- IEEE-754 subtraction on `JSNum` (as JavaScript `-` on numbers). -/
def sub : JSNum → JSNum → JSNum
  | nan, _ => nan
  | _, nan => nan
  | inf s, inf t => if s = t then nan else inf s
  | inf s, fin _ => inf s
  | fin _, inf t => inf !t
  | fin a, fin b => fin (a - b)

/-- IEEE-754 multiplication on `JSNum` (as JavaScript `*` on numbers). -/
def mul : JSNum → JSNum → JSNum
  | nan, _ => nan
  | _, nan => nan
  | inf s, inf t => inf (s = t)
  | inf s, fin q => if q = 0 then nan else inf (s = decide (0 < q))
  | fin q, inf t => if q = 0 then nan else inf (t = decide (0 < q))
  | fin a, fin b => fin (a * b)

/-- IEEE-754 division on `JSNum` (as JavaScript `/` on numbers): dividing a
nonzero finite number by (positive) zero yields a signed infinity, and `0 / 0`
yields `NaN`. -/
def div : JSNum → JSNum → JSNum
  | nan, _ => nan
  | _, nan => nan
  | inf _, inf _ => nan
  | inf s, fin q => if q = 0 then inf s else inf (s = decide (0 < q))
  | fin _, inf _ => fin 0
  | fin a, fin b =>
      if b = 0 then (if a = 0 then nan else inf (decide (0 < a))) else fin (a / b)

end JSNum

/-- The scrollbar style record (`ScrollBarStyle` in the source), with the
numeric value of each CSS length recorded instead of its `"...px"` string
(string formatting is presentation glue, not specified behaviour). `height`
and `top` are absent until `defineStyle` first runs; `right` is the optional
configured CSS length string, copied verbatim by the source. -/
structure ScrollBarStyle where
  opacity : ℚ
  height : Option ℚ := none
  top : Option ℚ := none
  right : Option String := none
deriving DecidableEq

/-- Constant `opacityBasic` of the source: the full ("active") opacity level. -/
def opacityBasic : ℚ := 1

/-- Constant `opacityTarget` of the source: the resting opacity level. -/
def opacityTarget : ℚ := 2 / 10

/-- Embedding of `defineStyle` (src/app.ts lines 141–163): the geometric part,
computing the style record assigned to `this.style`.  `parentH` is
`this.parentHeight()` (the parent's rendered bounding-rect height), `innerH`
is `window.innerHeight`, `percentage` is the configured height fraction and
`right` the optional configured right offset. -/
def defineStyle (parentH innerH percentage : ℚ) (right : Option String) : ScrollBarStyle :=
  let baseCalcul := if parentH > innerH then innerH else parentH
  let elementHeight := baseCalcul * percentage
  let s : ScrollBarStyle :=
    { opacity := 2 / 10
      height := some elementHeight
      top := some ((baseCalcul - elementHeight) / 2) }
  match right with
  | some r => { s with right := some r }
  | none => s

/-- Embedding of `updateIndicator` (src/app.ts lines 202–215).  Inputs:
`scrollTop` is `window.scrollY` (current scroll offset), `parentScrollHeight`
is `this.parent.scrollHeight`, `innerH` is `window.innerHeight`,
`elementClientHeight` is `this.element.clientHeight` (track rendered height).
Returns the thumb height (`progressHeight`, written to the indicator's
`height`) and the thumb vertical translation (`indicatorTop`, written to the
indicator's `transform`).  Divisions follow JavaScript semantics via `JSNum`;
the source performs no guard on either denominator. -/
def updateIndicator (scrollTop parentScrollHeight innerH elementClientHeight : ℚ) :
    JSNum × JSNum :=
  let totalHeight := parentScrollHeight - innerH
  let progressHeight :=
    JSNum.mul (JSNum.div (JSNum.fin innerH) (JSNum.fin parentScrollHeight))
      (JSNum.fin elementClientHeight)
  let scrollPercent := JSNum.div (JSNum.fin scrollTop) (JSNum.fin totalHeight)
  let indicatorTop :=
    JSNum.mul scrollPercent (JSNum.sub (JSNum.fin elementClientHeight) progressHeight)
  (progressHeight, indicatorTop)

/-- The per-instance drag session state of the source (`isDragging`, `startY`,
`startScrollTop`), together with the style record, so that frame conditions
("the handler touches nothing") can be stated. -/
structure DragState where
  isDragging : Bool
  startY : ℚ
  startScrollTop : ℚ
  style : ScrollBarStyle
deriving DecidableEq

/-- Embedding of `onDrag` (src/app.ts lines 245–253).  The handler runs on
every window-wide `mousemove`; when `isDragging` is false it returns
immediately.  Otherwise it computes the drag target offset and passes it to
`window.scrollTo` (returned here as `some target`); it mutates no instance
state in either case, so the state component of the result is always `s`
itself. `clientY` is the event's pointer Y, `velocity` the configured
multiplier, `elementClientHeight` the track rendered height,
`parentScrollHeight` and `innerH` as in `updateIndicator`. -/
def onDrag (s : DragState) (clientY velocity elementClientHeight parentScrollHeight innerH : ℚ) :
    DragState × Option JSNum :=
  if s.isDragging then
    let deltaY := clientY - s.startY
    let scrollPercent :=
      JSNum.div (JSNum.fin (deltaY * velocity)) (JSNum.fin elementClientHeight)
    let totalHeight := parentScrollHeight - innerH
    let target :=
      JSNum.add (JSNum.fin s.startScrollTop)
        (JSNum.mul scrollPercent (JSNum.fin totalHeight))
    (s, some target)
  else (s, none)

/-!
## Visibility state machine

`handleScroll` (src/app.ts lines 170–182) together with the `mouseenter` /
`mouseleave` listeners installed by `defineStyle` (lines 157–162) and the
deferred `setTimeout` callback form an event-driven opacity machine.  We model
it with explicit timer bookkeeping mirroring `window.setTimeout` /
`clearTimeout`: `timers` is the list of live deferred callbacks belonging to
this instance, as pairs of a handle and an absolute fire deadline (seconds);
`scrollTimeout` is the instance field of the same name storing the last
handle.  `hovering` is ghost environment state recording whether the pointer
is over the track (set by the enter/leave events, read by no handler — the
source keeps no such field).
-/

/-- Per-instance state of the opacity machine. -/
structure SBState where
  opacity : ℚ
  scrollTimeout : Option Nat
  timers : List (Nat × ℚ)
  nextId : Nat
  hovering : Bool
deriving DecidableEq

/-- The state at instance creation: resting opacity, no stored handle, no live
timer, pointer not hovering. -/
def initState : SBState :=
  { opacity := 2 / 10, scrollTimeout := none, timers := [], nextId := 0, hovering := false }

/-- Events driving the opacity machine: a scroll event at time `t`; the
event-loop firing the deferred callback with handle `id` at time `t` (only
effective when that handle is live and its deadline has been reached); the
pointer entering or leaving the track. -/
inductive SBEvent where
  | scroll (t : ℚ)
  | fire (id : Nat) (t : ℚ)
  | mouseenter (t : ℚ)
  | mouseleave (t : ℚ)

/-- Constant `timeTriggerScroll` of the source: the quiet period, in seconds. -/
def timeTriggerScroll : ℚ := 2

/-- Embedding of `handleScroll` (src/app.ts lines 170–182) at time `t`:
sets opacity to `opacityBasic`; if `scrollTimeout` holds a handle, clears that
timer; schedules a fresh timer due `timeTriggerScroll` seconds later whose
callback sets opacity to `opacityTarget`, storing its handle.  (The call to
`updateIndicator` it also makes touches only the thumb geometry, not this
state.) -/
def handleScroll (t : ℚ) (s : SBState) : SBState :=
  let timersCleared :=
    match s.scrollTimeout with
    | some id => s.timers.filter (fun p => p.1 != id)
    | none => s.timers
  { opacity := 1
    scrollTimeout := some s.nextId
    timers := timersCleared ++ [(s.nextId, t + timeTriggerScroll)]
    nextId := s.nextId + 1
    hovering := s.hovering }

/-- One step of the opacity machine.  `fire id t` models the event loop
running the deferred callback: it has an effect only if handle `id` is live
with deadline ≤ `t`; the callback (line 178) sets opacity to `opacityTarget`
and the timer is consumed (the source never nulls `scrollTimeout` in the
callback, so the stored handle is kept).  `mouseenter` / `mouseleave`
(lines 157–162) call `styleActivity` with `opacityBasic` / `opacityTarget`
respectively and touch nothing else — in particular they do not clear any
pending timer. -/
def step : SBEvent → SBState → SBState
  | .scroll t, s => handleScroll t s
  | .fire id t, s =>
      if s.timers.any (fun p => p.1 == id && decide (p.2 ≤ t)) then
        { s with opacity := 2 / 10, timers := s.timers.filter (fun p => p.1 != id) }
      else s
  | .mouseenter _, s => { s with opacity := 1, hovering := true }
  | .mouseleave _, s => { s with opacity := 2 / 10, hovering := false }

/-- Instance invariant: at most one live timer, and any live timer's handle is
the one stored in `scrollTimeout`. -/
def TimerInv (s : SBState) : Prop :=
  s.timers.length ≤ 1 ∧ ∀ p ∈ s.timers, s.scrollTimeout = some p.1

/-!
## Construction and initialization

The constructor (src/app.ts lines 77–90) resolves the parent selector, runs
`needsScrollbar` exactly once, and creates the track/thumb elements only when
it returned true; `init` (lines 96–109) returns immediately when the check
failed, and otherwise applies colors, runs `defineStyle` once, runs
`updateIndicator` once, and registers the five listeners.
-/

/-- The environment geometry read during construction.  `parentIsBody` is
whether the resolved parent element is the `<body>` tag; `docScrollHeight` is
`document.documentElement.scrollHeight`; the remaining fields are the parent
element's own metrics and `window.innerHeight`. -/
structure Env where
  parentIsBody : Bool
  docScrollHeight : ℚ
  innerH : ℚ
  parentScrollHeight : ℚ
  parentClientHeight : ℚ
deriving DecidableEq

/-- Embedding of `needsScrollbar` (src/app.ts lines 189–196): for a `<body>`
parent compare the document scroll height with the window inner height,
otherwise compare the parent's own scroll height with its client height. -/
def needsScrollbar (e : Env) : Bool :=
  if e.parentIsBody then decide (e.docScrollHeight > e.innerH)
  else decide (e.parentScrollHeight > e.parentClientHeight)

/-- Observable outcome of running the constructor followed by `init()`:
how many times the needs-scrollbar check ran, whether the track/thumb elements
were created, which listeners were registered, and how many layout passes
(`defineStyle`) and thumb updates (`updateIndicator`) ran. -/
structure InitResult where
  checkCalls : Nat
  elementsCreated : Bool
  listeners : List String
  layoutPasses : Nat
  thumbUpdates : Nat
deriving DecidableEq

/-- Embedding of `constructor` (src/app.ts lines 77–90) followed by `init`
(lines 96–109).  The constructor calls `needsScrollbar` once (line 80) and
calls `createElements` iff it returned true (line 81); `init` returns at once
when the check failed (line 97) and otherwise performs one `defineStyle`, one
`updateIndicator`, and registers the scroll, resize, mousedown, mousemove and
mouseup listeners (lines 103–108). -/
def constructAndInit (e : Env) : InitResult :=
  let needed := needsScrollbar e
  if needed then
    { checkCalls := 1
      elementsCreated := true
      listeners := ["scroll", "resize", "mousedown", "mousemove", "mouseup"]
      layoutPasses := 1
      thumbUpdates := 1 }
  else
    { checkCalls := 1
      elementsCreated := false
      listeners := []
      layoutPasses := 0
      thumbUpdates := 0 }

/-- A JavaScript runtime exception. -/
inductive JsError where
  | typeError : JsError
deriving DecidableEq

/-- Embedding of the constructor's behaviour with respect to the host lookup
(src/app.ts lines 77–81).  `document.querySelector` yields `none` when the
selector matches no element; the source stores the result unchecked and
immediately calls `needsScrollbar({parent: this.parent})`, whose
`parent.tagName` access (line 190) throws a `TypeError` on `null` — so
construction fails by exception before any element is created or listener
registered.  With a resolved parent, construction and `init` proceed as in
`constructAndInit`. -/
def constructWithLookup (lookup : Option Env) : Except JsError InitResult :=
  match lookup with
  | none => Except.error JsError.typeError
  | some e => Except.ok (constructAndInit e)

/-!
## Helper lemmas
-/

@[simp] theorem JSNum.add_fin (a b : ℚ) : JSNum.add (JSNum.fin a) (JSNum.fin b) = JSNum.fin (a + b) := rfl

@[simp] theorem JSNum.sub_fin (a b : ℚ) : JSNum.sub (JSNum.fin a) (JSNum.fin b) = JSNum.fin (a - b) := rfl

@[simp] theorem JSNum.mul_fin (a b : ℚ) : JSNum.mul (JSNum.fin a) (JSNum.fin b) = JSNum.fin (a * b) := rfl

theorem JSNum.div_fin {b : ℚ} (a : ℚ) (hb : b ≠ 0) :
    JSNum.div (JSNum.fin a) (JSNum.fin b) = JSNum.fin (a / b) := by
  simp [JSNum.div, hb]

/-- Closed form of `defineStyle`: the branch on `parentHeight > innerHeight`
computes exactly `min parentH innerH` as the base. -/
theorem defineStyle_eq (parentH innerH percentage : ℚ) (r : Option String) :
    defineStyle parentH innerH percentage r =
      { opacity := 2 / 10
        height := some (min parentH innerH * percentage)
        top := some ((min parentH innerH - min parentH innerH * percentage) / 2)
        right := r } := by
  have hmin : (if parentH > innerH then innerH else parentH) = min parentH innerH := by
    rcases le_or_lt parentH innerH with h | h
    · rw [if_neg (not_lt.mpr h), min_eq_left h]
    · rw [if_pos h, min_eq_right h.le]
  cases r <;> simp [defineStyle, hmin]

/-!
## Claim theorems
-/

/-- C1: For every layout pass (`defineStyle`), the track geometry is computed
as `base = min(parent rendered height, window.innerHeight)`, track height
`= base * percentage`, track top offset `= (base - trackHeight) / 2` (so the
track is vertically centred: `top + height/2 = base/2`); when a right offset
is configured it is applied, and the recorded opacity is reset to the resting
level `0.2`.  In particular, for `percentage ∈ (0,1]` and
`innerH ≤ parentH`, the track height is `innerH * percentage`. -/
theorem C1_defineStyle_geometry (parentH innerH percentage : ℚ) (r : Option String)
    (_hp0 : 0 < percentage) (_hp1 : percentage ≤ 1) :
    (defineStyle parentH innerH percentage r).height
        = some (min parentH innerH * percentage) ∧
    (defineStyle parentH innerH percentage r).top
        = some ((min parentH innerH - min parentH innerH * percentage) / 2) ∧
    (defineStyle parentH innerH percentage r).opacity = opacityTarget ∧
    (defineStyle parentH innerH percentage r).right = r ∧
    (innerH ≤ parentH →
      (defineStyle parentH innerH percentage r).height = some (innerH * percentage)) ∧
    ((min parentH innerH - min parentH innerH * percentage) / 2
        + min parentH innerH * percentage / 2 = min parentH innerH / 2) := by
  rw [defineStyle_eq]
  refine ⟨rfl, rfl, rfl, rfl, ?_, by ring⟩
  intro h
  simp [min_eq_right h]

/-- Witness for C1 at the spec scenario: parent rendered height 3000,
viewport 1000, fraction 0.85, right offset `"5rem"`. -/
theorem C1_defineStyle_geometry_witness :
    (0 < (85 / 100 : ℚ) ∧ (85 / 100 : ℚ) ≤ 1) ∧
    ((defineStyle 3000 1000 (85 / 100) (some ("5rem"))).height
        = some (min (3000 : ℚ) 1000 * (85 / 100)) ∧
      (defineStyle 3000 1000 (85 / 100) (some ("5rem"))).top
        = some ((min (3000 : ℚ) 1000 - min (3000 : ℚ) 1000 * (85 / 100)) / 2) ∧
      (defineStyle 3000 1000 (85 / 100) (some ("5rem"))).opacity = opacityTarget ∧
      (defineStyle 3000 1000 (85 / 100) (some ("5rem"))).right = some ("5rem") ∧
      ((1000 : ℚ) ≤ 3000 →
        (defineStyle 3000 1000 (85 / 100) (some ("5rem"))).height
          = some (1000 * (85 / 100))) ∧
      ((min (3000 : ℚ) 1000 - min (3000 : ℚ) 1000 * (85 / 100)) / 2
          + min (3000 : ℚ) 1000 * (85 / 100) / 2 = min (3000 : ℚ) 1000 / 2)) :=
  ⟨⟨by norm_num, by norm_num⟩,
    C1_defineStyle_geometry 3000 1000 (85 / 100) (some ("5rem")) (by norm_num) (by norm_num)⟩

/-- C2: For every thumb update (`updateIndicator`), the thumb height is
`(window.innerHeight / parent scrollHeight) * track rendered height`, and the
thumb translation is `scrollFraction * (trackHeight - progressHeight)` with
`scrollFraction = scrollTop / (parent scrollHeight - window.innerHeight)`; in
particular the translation is `0` at scroll offset `0` and
`trackHeight - progressHeight` at the maximum offset
`parent scrollHeight - window.innerHeight`. -/
theorem C2_updateIndicator_formulas (scrollTop psh innerH cH : ℚ)
    (hpsh : psh ≠ 0) (htot : psh - innerH ≠ 0) :
    (updateIndicator scrollTop psh innerH cH).1 = JSNum.fin (innerH / psh * cH) ∧
    (updateIndicator scrollTop psh innerH cH).2
        = JSNum.fin (scrollTop / (psh - innerH) * (cH - innerH / psh * cH)) ∧
    (updateIndicator 0 psh innerH cH).2 = JSNum.fin 0 ∧
    (updateIndicator (psh - innerH) psh innerH cH).2
        = JSNum.fin (cH - innerH / psh * cH) := by
  refine ⟨?_, ?_, ?_, ?_⟩
  · simp [updateIndicator, JSNum.div_fin innerH hpsh]
  · simp [updateIndicator, JSNum.div_fin innerH hpsh, JSNum.div_fin scrollTop htot]
  · simp [updateIndicator, JSNum.div_fin innerH hpsh, JSNum.div_fin 0 htot]
  · simp [updateIndicator, JSNum.div_fin innerH hpsh, JSNum.div_fin (psh - innerH) htot,
      div_self htot]

/-- Witness for C2 at the spec scenario: content height 3000, viewport 1000,
track height 850 (thumb height 850/3 ≈ 283.33, max translation 1700/3 ≈ 566.67). -/
theorem C2_updateIndicator_formulas_witness :
    ((3000 : ℚ) ≠ 0 ∧ (3000 : ℚ) - 1000 ≠ 0) ∧
    ((updateIndicator 500 3000 1000 850).1 = JSNum.fin (1000 / 3000 * 850) ∧
      (updateIndicator 500 3000 1000 850).2
        = JSNum.fin (500 / (3000 - 1000) * (850 - 1000 / 3000 * 850)) ∧
      (updateIndicator 0 3000 1000 850).2 = JSNum.fin 0 ∧
      (updateIndicator ((3000 : ℚ) - 1000) 3000 1000 850).2
        = JSNum.fin (850 - 1000 / 3000 * 850)) :=
  ⟨⟨by norm_num, by norm_num⟩,
    C2_updateIndicator_formulas 500 3000 1000 850 (by norm_num) (by norm_num)⟩

/-- C3: the claim says a zero-or-negative scrollable range yields a defined
scroll fraction of 0.  The source has no such guard: with a non-body parent
whose `scrollHeight` (800) exceeds its `clientHeight` (600) — so the
needs-scrollbar check passes and `updateIndicator` runs — and
`window.innerHeight = 800`, the scrollable range is `800 - 800 = 0`, the
fraction is `0 / 0 = NaN`, and the thumb translation written to the style is
`NaN`, not `0`. -/
theorem C3_no_division_guard :
    needsScrollbar ⟨false, 0, 800, 800, 600⟩ = true ∧
    (updateIndicator 0 800 800 400).2 = JSNum.nan ∧
    (updateIndicator 0 800 800 400).2 ≠ JSNum.fin 0 := by
  have h : (updateIndicator 0 800 800 400).2 = JSNum.nan := by
    norm_num [updateIndicator, JSNum.div, JSNum.mul, JSNum.sub]
  refine ⟨by decide, h, ?_⟩
  rw [h]
  intro hc
  exact JSNum.noConfusion hc

/-- C4: during an active drag, every pointer move targets the absolute offset
`startScrollOffset + ((clientY - startY) * velocity / trackHeight) *
(parent scrollHeight - window.innerHeight)`, with no clamping by the drag
controller and no instance-state mutation; the spec scenario (start offset
500, 100px move, velocity 2, track height 850, scrollable range 2000) yields
`16500/17 ≈ 970.6`. -/
theorem C4_onDrag_formula (s : DragState) (clientY velocity cH psh innerH : ℚ)
    (hdrag : s.isDragging = true) (hcH : cH ≠ 0) :
    (onDrag s clientY velocity cH psh innerH).1 = s ∧
    (onDrag s clientY velocity cH psh innerH).2
        = some (JSNum.fin (s.startScrollTop
            + (clientY - s.startY) * velocity / cH * (psh - innerH))) ∧
    (onDrag ⟨true, 0, 500, ⟨2 / 10, none, none, none⟩⟩ 100 2 850 3000 1000).2
        = some (JSNum.fin (16500 / 17)) ∧
    |(16500 / 17 : ℚ) - 9706 / 10| < 1 / 10 := by
  refine ⟨?_, ?_, ?_, ?_⟩
  · simp [onDrag, hdrag]
  · simp [onDrag, hdrag, JSNum.div_fin ((clientY - s.startY) * velocity) hcH]
  · norm_num [onDrag, JSNum.div, JSNum.add, JSNum.mul]
  · rw [abs_lt]; constructor <;> norm_num

/-- Witness for C4 at the spec drag scenario. -/
theorem C4_onDrag_formula_witness :
    ((DragState.mk true 0 500 ⟨2 / 10, none, none, none⟩).isDragging = true
        ∧ (850 : ℚ) ≠ 0) ∧
    ((onDrag ⟨true, 0, 500, ⟨2 / 10, none, none, none⟩⟩ 100 2 850 3000 1000).1
        = ⟨true, 0, 500, ⟨2 / 10, none, none, none⟩⟩ ∧
      (onDrag ⟨true, 0, 500, ⟨2 / 10, none, none, none⟩⟩ 100 2 850 3000 1000).2
        = some (JSNum.fin ((500 : ℚ) + (100 - 0) * 2 / 850 * (3000 - 1000))) ∧
      (onDrag ⟨true, 0, 500, ⟨2 / 10, none, none, none⟩⟩ 100 2 850 3000 1000).2
        = some (JSNum.fin (16500 / 17)) ∧
      |(16500 / 17 : ℚ) - 9706 / 10| < 1 / 10) :=
  ⟨⟨rfl, by norm_num⟩,
    C4_onDrag_formula ⟨true, 0, 500, ⟨2 / 10, none, none, none⟩⟩ 100 2 850 3000 1000
      rfl (by norm_num)⟩

/-- Under the timer invariant, `handleScroll` clears any pending timer and
leaves exactly the freshly scheduled one, due `timeTriggerScroll` later. -/
theorem handleScroll_timers (s : SBState) (t : ℚ) (h : TimerInv s) :
    (handleScroll t s).timers = [(s.nextId, t + timeTriggerScroll)] := by
  obtain ⟨-, hall⟩ := h
  rcases hst : s.scrollTimeout with _ | id
  · have hnil : s.timers = [] := by
      cases hts : s.timers with
      | nil => rfl
      | cons p l =>
        have hp := hall p (by rw [hts]; exact List.mem_cons_self p l)
        rw [hst] at hp
        exact absurd hp (by simp)
    simp [handleScroll, hst, hnil]
  · have hfil : s.timers.filter (fun p => p.1 != id) = [] := by
      rw [List.filter_eq_nil_iff]
      intro p hp
      have hps := hall p hp
      rw [hst] at hps
      have hpid : p.1 = id := by injection hps with h2; exact h2.symm
      simp [hpid]
    simp [handleScroll, hst, hfil]

/-- Lemma: `handleScroll` preserves the timer invariant. -/
theorem handleScroll_TimerInv (s : SBState) (t : ℚ) (h : TimerInv s) :
    TimerInv (handleScroll t s) := by
  have ht := handleScroll_timers s t h
  constructor
  · rw [ht]; simp
  · intro p hp
    rw [ht, List.mem_singleton] at hp
    subst hp
    rfl

/-- Every event of the opacity machine preserves the timer invariant: at most
one live timer per instance, its handle the stored one. -/
theorem step_TimerInv (e : SBEvent) (s : SBState) (h : TimerInv s) : TimerInv (step e s) := by
  obtain ⟨hlen, hall⟩ := h
  cases e with
  | scroll t => exact handleScroll_TimerInv s t ⟨hlen, hall⟩
  | fire id t =>
    simp only [step]
    split
    · constructor
      · exact le_trans (List.length_filter_le _ _) hlen
      · intro p hp
        exact hall p (List.mem_of_mem_filter hp)
    · exact ⟨hlen, hall⟩
  | mouseenter t => exact ⟨hlen, hall⟩
  | mouseleave t => exact ⟨hlen, hall⟩

/-- Running the deferred callback of a handle that is not live with an
expired deadline changes nothing. -/
theorem fire_noop (s : SBState) (id : Nat) (t : ℚ)
    (h : s.timers.any (fun p => p.1 == id && decide (p.2 ≤ t)) = false) :
    step (.fire id t) s = s := by
  simp only [step, h]
  simp

/-- The creation-time state satisfies the timer invariant. -/
theorem initState_TimerInv : TimerInv initState := by
  constructor
  · simp [initState]
  · intro p hp
    simp [initState] at hp

/-- C5: every scroll event sets opacity to the active level, cancels any
pending return-to-resting timer and schedules a new one due 2 seconds later,
so at most one pending timer exists per instance at any time (an invariant
preserved by every event, holding initially); after a second scroll event 1
second after the first, the only live timer is due at `t1 + 3`, so no
timer firing strictly before then has any effect and opacity stays active —
the resting transition cannot fire 2 seconds after the *first* scroll. -/
theorem C5_scroll_debounce (s : SBState) (t1 : ℚ) (hInv : TimerInv s) :
    (∀ e, TimerInv (step e s)) ∧
    TimerInv initState ∧
    (step (.scroll t1) s).opacity = opacityBasic ∧
    (step (.scroll t1) s).timers = [(s.nextId, t1 + timeTriggerScroll)] ∧
    (step (.scroll (t1 + 1)) (step (.scroll t1) s)).timers
        = [(s.nextId + 1, t1 + 1 + timeTriggerScroll)] ∧
    (step (.scroll (t1 + 1)) (step (.scroll t1) s)).opacity = opacityBasic ∧
    (∀ id t, t < t1 + 1 + timeTriggerScroll →
      step (.fire id t) (step (.scroll (t1 + 1)) (step (.scroll t1) s))
        = step (.scroll (t1 + 1)) (step (.scroll t1) s)) := by
  have h1 : TimerInv (step (.scroll t1) s) := step_TimerInv _ s hInv
  have ht1 : (step (.scroll t1) s).timers = [(s.nextId, t1 + timeTriggerScroll)] :=
    handleScroll_timers s t1 hInv
  have hnext : (step (.scroll t1) s).nextId = s.nextId + 1 := rfl
  have ht2 : (step (.scroll (t1 + 1)) (step (.scroll t1) s)).timers
      = [(s.nextId + 1, t1 + 1 + timeTriggerScroll)] := by
    have := handleScroll_timers (step (.scroll t1) s) (t1 + 1) h1
    rw [hnext] at this
    exact this
  refine ⟨fun e => step_TimerInv e s hInv, initState_TimerInv, rfl, ht1, ht2, rfl, ?_⟩
  intro id t ht
  apply fire_noop
  rw [ht2]
  simp [not_le.mpr ht]

/-- Witness for C5 from the creation-time state with the first scroll at
time 0 and the second at time 1. -/
theorem C5_scroll_debounce_witness :
    TimerInv initState ∧
    ((∀ e, TimerInv (step e initState)) ∧
      TimerInv initState ∧
      (step (.scroll 0) initState).opacity = opacityBasic ∧
      (step (.scroll 0) initState).timers = [(initState.nextId, 0 + timeTriggerScroll)] ∧
      (step (.scroll (0 + 1)) (step (.scroll 0) initState)).timers
          = [(initState.nextId + 1, 0 + 1 + timeTriggerScroll)] ∧
      (step (.scroll (0 + 1)) (step (.scroll 0) initState)).opacity = opacityBasic ∧
      (∀ id t, t < 0 + 1 + timeTriggerScroll →
        step (.fire id t) (step (.scroll (0 + 1)) (step (.scroll 0) initState))
          = step (.scroll (0 + 1)) (step (.scroll 0) initState))) :=
  ⟨initState_TimerInv, C5_scroll_debounce initState 0 initState_TimerInv⟩

/-- C6 counterexample: the claim says a hover-enter while a return-to-resting
timer is pending cancels the pending transition, so the timer never drops
opacity while the pointer hovers the track.  In the source the `mouseenter`
listener (src/app.ts lines 157–159) only sets opacity and clears nothing:
after a scroll at time 0 (timer due at 2) and a hover-enter at time 1 (timers
unchanged), the timer fires at time 2 and drops opacity to the resting level
0.2 while the pointer is still hovering. -/
theorem C6_counterexample :
    (step (.mouseenter 1) (step (.scroll 0) initState)).timers
        = (step (.scroll 0) initState).timers ∧
    (step (.fire 0 2) (step (.mouseenter 1) (step (.scroll 0) initState))).hovering = true ∧
    (step (.fire 0 2) (step (.mouseenter 1) (step (.scroll 0) initState))).opacity
        = opacityTarget := by
  have h1 : step (.scroll 0) initState =
      { opacity := 1, scrollTimeout := some 0, timers := [(0, 2)], nextId := 1,
        hovering := false } := by
    simp [step, handleScroll, initState, timeTriggerScroll]
  have h2 : step (.mouseenter 1) (step (.scroll 0) initState) =
      { opacity := 1, scrollTimeout := some 0, timers := [(0, 2)], nextId := 1,
        hovering := true } := by
    rw [h1]; rfl
  have h3 : step (.fire 0 2) (step (.mouseenter 1) (step (.scroll 0) initState)) =
      { opacity := 2 / 10, scrollTimeout := some 0, timers := [], nextId := 1,
        hovering := true } := by
    rw [h2]
    simp [step]
  refine ⟨by rw [h2, h1], by rw [h3], by rw [h3]; rfl⟩

/-- C6 amended: a hover-enter during a pending return-to-resting timer does
NOT cancel it — the `mouseenter` handler only raises opacity to the active
level (and the pointer is then hovering); the live timers and the stored
handle are untouched, and a live timer whose deadline has passed still fires,
dropping opacity to the resting level even while the pointer hovers the
track. -/
theorem C6_hover_does_not_cancel (s : SBState) (t t2 : ℚ) (id : Nat) (tf : ℚ)
    (hm : (id, tf) ∈ s.timers) (hle : tf ≤ t2) :
    (step (.mouseenter t) s).timers = s.timers ∧
    (step (.mouseenter t) s).scrollTimeout = s.scrollTimeout ∧
    (step (.mouseenter t) s).opacity = opacityBasic ∧
    (step (.mouseenter t) s).hovering = true ∧
    (step (.fire id t2) (step (.mouseenter t) s)).opacity = opacityTarget ∧
    (step (.fire id t2) (step (.mouseenter t) s)).hovering = true := by
  have hany : s.timers.any (fun p => p.1 == id && decide (p.2 ≤ t2)) = true :=
    List.any_eq_true.mpr ⟨(id, tf), hm, by simp [hle]⟩
  refine ⟨rfl, rfl, rfl, rfl, ?_, ?_⟩ <;> simp only [step, hany] <;> rfl

/-- Witness for the amended C6: a state with one live timer due at 2; the
pointer enters at 1 and the timer fires at 2 while hovering. -/
theorem C6_hover_does_not_cancel_witness :
    (((0 : Nat), (2 : ℚ)) ∈ (SBState.mk 1 (some 0) [(0, 2)] 1 false).timers
        ∧ (2 : ℚ) ≤ 2) ∧
    ((step (.mouseenter 1) ⟨1, some 0, [(0, 2)], 1, false⟩).timers
        = (SBState.mk 1 (some 0) [(0, 2)] 1 false).timers ∧
      (step (.mouseenter 1) ⟨1, some 0, [(0, 2)], 1, false⟩).scrollTimeout
        = (SBState.mk 1 (some 0) [(0, 2)] 1 false).scrollTimeout ∧
      (step (.mouseenter 1) ⟨1, some 0, [(0, 2)], 1, false⟩).opacity = opacityBasic ∧
      (step (.mouseenter 1) ⟨1, some 0, [(0, 2)], 1, false⟩).hovering = true ∧
      (step (.fire 0 2) (step (.mouseenter 1) ⟨1, some 0, [(0, 2)], 1, false⟩)).opacity
        = opacityTarget ∧
      (step (.fire 0 2) (step (.mouseenter 1) ⟨1, some 0, [(0, 2)], 1, false⟩)).hovering
        = true) :=
  ⟨⟨by simp, le_refl 2⟩,
    C6_hover_does_not_cancel ⟨1, some 0, [(0, 2)], 1, false⟩ 1 2 0 2 (by simp) (le_refl 2)⟩

/-- C7: when the needs-scrollbar check fails at construction (for a `<body>`
host: document scroll height not greater than `window.innerHeight`; for any
other host: its own scroll height not greater than its client height), no
elements are created, `init()` registers no listener and performs no layout
pass or thumb update; and the check itself runs exactly once, at
construction, for every environment. -/
theorem C7_not_needed_inert (e : Env) (h : needsScrollbar e = false) :
    constructAndInit e =
      { checkCalls := 1, elementsCreated := false, listeners := [],
        layoutPasses := 0, thumbUpdates := 0 } ∧
    (e.parentIsBody = true → e.docScrollHeight ≤ e.innerH) ∧
    (e.parentIsBody = false → e.parentScrollHeight ≤ e.parentClientHeight) ∧
    (∀ e2 : Env, (constructAndInit e2).checkCalls = 1) := by
  refine ⟨by simp [constructAndInit, h], ?_, ?_, ?_⟩
  · intro hb
    simp [needsScrollbar, hb, not_lt] at h
    exact h
  · intro hb
    simp [needsScrollbar, hb, not_lt] at h
    exact h
  · intro e2
    by_cases h2 : needsScrollbar e2 = true <;> simp [constructAndInit, h2]

/-- Witness for C7: a `<body>` host whose document scroll height 500 does not
exceed the window height 800. -/
theorem C7_not_needed_inert_witness :
    needsScrollbar ⟨true, 500, 800, 0, 0⟩ = false ∧
    (constructAndInit ⟨true, 500, 800, 0, 0⟩ =
        { checkCalls := 1, elementsCreated := false, listeners := [],
          layoutPasses := 0, thumbUpdates := 0 } ∧
      ((Env.mk true 500 800 0 0).parentIsBody = true →
        (Env.mk true 500 800 0 0).docScrollHeight ≤ (Env.mk true 500 800 0 0).innerH) ∧
      ((Env.mk true 500 800 0 0).parentIsBody = false →
        (Env.mk true 500 800 0 0).parentScrollHeight
          ≤ (Env.mk true 500 800 0 0).parentClientHeight) ∧
      (∀ e2 : Env, (constructAndInit e2).checkCalls = 1)) :=
  ⟨by norm_num [needsScrollbar],
    C7_not_needed_inert ⟨true, 500, 800, 0, 0⟩ (by norm_num [needsScrollbar])⟩

/-- C8 counterexample: the claim says the scroll fraction is clamped to
`[0,1]`, so any out-of-range offset still gives a translation inside
`[0, trackHeight - progressHeight]`.  The source clamps nothing: at scroll
offset `-100` with content height 3000, viewport 1000 and track height 850,
the fraction is `-1/20` and the translation `-85/3 < 0`, outside the
interval. -/
theorem C8_counterexample :
    (updateIndicator (-100) 3000 1000 850).1 = JSNum.fin (850 / 3) ∧
    (updateIndicator (-100) 3000 1000 850).2 = JSNum.fin (-85 / 3) ∧
    ¬ (0 : ℚ) ≤ -85 / 3 := by
  refine ⟨?_, ?_, by norm_num⟩
  · norm_num [updateIndicator, JSNum.div, JSNum.mul, JSNum.sub]
  · norm_num [updateIndicator, JSNum.div, JSNum.mul, JSNum.sub]

/-- C8 amended: the scroll fraction is used raw (no clamping); the thumb
translation is `(scrollTop / totalHeight) * (trackHeight - progressHeight)`
exactly, and it lies within `[0, trackHeight - progressHeight]` whenever the
scroll offset itself lies within the valid range `[0, totalHeight]` (offsets
outside the range produce translations outside the interval, as the
counterexample shows). -/
theorem C8_translation_unclamped_bounds (scrollTop psh innerH cH : ℚ)
    (h0 : 0 ≤ scrollTop) (hmax : scrollTop ≤ psh - innerH)
    (hpsh : 0 < psh) (htot : 0 < psh - innerH) (hcH : 0 ≤ cH) :
    (updateIndicator scrollTop psh innerH cH).2
        = JSNum.fin (scrollTop / (psh - innerH) * (cH - innerH / psh * cH)) ∧
    0 ≤ scrollTop / (psh - innerH) * (cH - innerH / psh * cH) ∧
    scrollTop / (psh - innerH) * (cH - innerH / psh * cH) ≤ cH - innerH / psh * cH := by
  have hf0 : 0 ≤ scrollTop / (psh - innerH) := div_nonneg h0 htot.le
  have hf1 : scrollTop / (psh - innerH) ≤ 1 := (div_le_one htot).mpr hmax
  have hw : 0 ≤ cH - innerH / psh * cH := by
    have h1 : innerH / psh ≤ 1 := (div_le_one hpsh).mpr (by linarith)
    have h2 : innerH / psh * cH ≤ cH := mul_le_of_le_one_left hcH h1
    linarith
  refine ⟨?_, mul_nonneg hf0 hw, mul_le_of_le_one_left hw hf1⟩
  simp [updateIndicator, JSNum.div_fin innerH hpsh.ne', JSNum.div_fin scrollTop htot.ne']

/-- Witness for the amended C8 at the spec scenario geometry with scroll
offset 500. -/
theorem C8_translation_unclamped_bounds_witness :
    ((0 : ℚ) ≤ 500 ∧ (500 : ℚ) ≤ 3000 - 1000 ∧ (0 : ℚ) < 3000 ∧
      (0 : ℚ) < 3000 - 1000 ∧ (0 : ℚ) ≤ 850) ∧
    ((updateIndicator 500 3000 1000 850).2
        = JSNum.fin (500 / (3000 - 1000) * (850 - 1000 / 3000 * 850)) ∧
      0 ≤ (500 : ℚ) / (3000 - 1000) * (850 - 1000 / 3000 * 850) ∧
      (500 : ℚ) / (3000 - 1000) * (850 - 1000 / 3000 * 850)
        ≤ 850 - 1000 / 3000 * 850) :=
  ⟨⟨by norm_num, by norm_num, by norm_num, by norm_num, by norm_num⟩,
    C8_translation_unclamped_bounds 500 3000 1000 850 (by norm_num) (by norm_num)
      (by norm_num) (by norm_num) (by norm_num)⟩

/-- C9: when the configured host selector matches no element
(`document.querySelector` returns `null`), construction fails fast by
exception — the unguarded `parent.tagName` access in `needsScrollbar` throws
a `TypeError` inside the constructor — and never yields a constructed
instance. -/
theorem C9_missing_host_error :
    constructWithLookup none = Except.error JsError.typeError ∧
    ∀ r : InitResult, constructWithLookup none ≠ Except.ok r := by
  refine ⟨rfl, ?_⟩
  intro r hc
  exact Except.noConfusion hc

/-- C10: a pointer-move while no drag is active (`isDragging = false`) issues
no scroll command and leaves every instance field (`isDragging`, `startY`,
`startScrollTop`, style) unchanged — even though the `mousemove` listener is
registered window-wide whenever the scrollbar is active. -/
theorem C10_onDrag_inactive_noop (s : DragState) (clientY velocity cH psh innerH : ℚ)
    (h : s.isDragging = false) :
    onDrag s clientY velocity cH psh innerH = (s, none) ∧
    (onDrag s clientY velocity cH psh innerH).1.isDragging = s.isDragging ∧
    (onDrag s clientY velocity cH psh innerH).1.startY = s.startY ∧
    (onDrag s clientY velocity cH psh innerH).1.startScrollTop = s.startScrollTop ∧
    (onDrag s clientY velocity cH psh innerH).1.style = s.style ∧
    (onDrag s clientY velocity cH psh innerH).2 = none ∧
    (∀ e : Env, needsScrollbar e = true → "mousemove" ∈ (constructAndInit e).listeners) := by
  have hmain : onDrag s clientY velocity cH psh innerH = (s, none) := by
    simp [onDrag, h]
  refine ⟨hmain, by rw [hmain], by rw [hmain], by rw [hmain], by rw [hmain],
    by rw [hmain], ?_⟩
  intro e he
  simp [constructAndInit, he]

/-- Witness for C10: a concrete inactive drag state, and the listener fact at
a host that needs a scrollbar. -/
theorem C10_onDrag_inactive_noop_witness :
    (DragState.mk false 5 7 ⟨1, none, none, none⟩).isDragging = false ∧
    (onDrag ⟨false, 5, 7, ⟨1, none, none, none⟩⟩ 1 2 3 4 5
        = (⟨false, 5, 7, ⟨1, none, none, none⟩⟩, none) ∧
      (onDrag ⟨false, 5, 7, ⟨1, none, none, none⟩⟩ 1 2 3 4 5).1.isDragging
        = (DragState.mk false 5 7 ⟨1, none, none, none⟩).isDragging ∧
      (onDrag ⟨false, 5, 7, ⟨1, none, none, none⟩⟩ 1 2 3 4 5).1.startY
        = (DragState.mk false 5 7 ⟨1, none, none, none⟩).startY ∧
      (onDrag ⟨false, 5, 7, ⟨1, none, none, none⟩⟩ 1 2 3 4 5).1.startScrollTop
        = (DragState.mk false 5 7 ⟨1, none, none, none⟩).startScrollTop ∧
      (onDrag ⟨false, 5, 7, ⟨1, none, none, none⟩⟩ 1 2 3 4 5).1.style
        = (DragState.mk false 5 7 ⟨1, none, none, none⟩).style ∧
      (onDrag ⟨false, 5, 7, ⟨1, none, none, none⟩⟩ 1 2 3 4 5).2 = none ∧
      (∀ e : Env, needsScrollbar e = true → "mousemove" ∈ (constructAndInit e).listeners)) :=
  ⟨rfl, C10_onDrag_inactive_noop ⟨false, 5, 7, ⟨1, none, none, none⟩⟩ 1 2 3 4 5 rfl⟩
